import Mathlib

/-!
Verification development for the `serverless-expense-api` repository
(`src/lambda_function.py`): a single AWS-Lambda handler that validates an
expense record (date, description, category, amount, account) and appends it
as a row to a Google Sheets worksheet.

The Python source is shallowly embedded below:
* Python values appearing in events are modelled by `PyVal` (JSON-like data:
  `None`, booleans, integers, strings, lists, dicts with string keys, in
  insertion order).  Non-ASCII text is carried verbatim by Lean strings.
* Python exceptions are modelled by `PyExc`; functions that can raise return
  `Except PyExc _`.  `ExpenseError` (the repository's base exception) is the
  `expenseError` constructor; `AttributeError` (raised by `x.get` on objects
  without that attribute) is `attributeError`; any other exception is `other`.
* Library behaviour that the source calls into (`datetime.strptime`,
  `decimal.Decimal`, `str`, `str.strip`, `json.dumps`) is modelled faithfully
  for the fragment that can occur here, over ASCII digits/whitespace.
* `json.loads` is an external parameter (`jloads`) of the payload parser and
  handler: the claims about the parser quantify over its result, never over
  its internals.
* The Google Sheets backend is modelled as a `Sheet` state (a populated-row
  count plus a partial map from column/row coordinates to cell values)
  together with an explicit failure schedule, since the claims concern which
  cells are written and what happens when a backend call throws.
-/

/-- Python values as they occur in Lambda events and bodies (JSON-like).
`null` is Python `None`; `dict` keeps insertion order with string keys. -/
inductive PyVal where
  | null : PyVal
  | bool : Bool → PyVal
  | int : Int → PyVal
  | str : String → PyVal
  | list : List PyVal → PyVal
  | dict : List (String × PyVal) → PyVal

/-- Python exceptions relevant to this program.  `expenseError` is the
repository's `ExpenseError`; `attributeError` arises from `body.get` when
`body` is not a dict; `other` stands for any further unexpected exception. -/
inductive PyExc where
  | expenseError : String → PyExc
  | attributeError : String → PyExc
  | other : String → PyExc
deriving DecidableEq, Repr

/-- Is this exception an `ExpenseError` (the only class caught specially by
`lambda_handler`)? -/
def PyExc.isExpense : PyExc → Bool
  | .expenseError _ => true
  | _ => false

/-- Decidable equality of `Except` results, so witnesses can be settled by
`decide`. -/
instance {ε α : Type} [DecidableEq ε] [DecidableEq α] : DecidableEq (Except ε α) :=
  fun a b =>
    match a, b with
    | .ok x, .ok y =>
      if h : x = y then .isTrue (by rw [h]) else .isFalse (by intro c; injection c; contradiction)
    | .error x, .error y =>
      if h : x = y then .isTrue (by rw [h]) else .isFalse (by intro c; injection c; contradiction)
    | .ok _, .error _ => .isFalse (by intro c; exact Except.noConfusion c)
    | .error _, .ok _ => .isFalse (by intro c; exact Except.noConfusion c)

/-- Python type name, as used in `AttributeError` messages. -/
def pyTypeName : PyVal → String
  | .null => "NoneType"
  | .bool _ => "bool"
  | .int _ => "int"
  | .str _ => "str"
  | .list _ => "list"
  | .dict _ => "dict"

/-- Python truthiness (`bool(v)`): `None`, `False`, `0`, `""`, `[]`, `{}`
are falsy, everything else truthy. -/
def truthy : PyVal → Bool
  | .null => false
  | .bool b => b
  | .int n => n != 0
  | .str s => s != ""
  | .list [] => false
  | .list (_ :: _) => true
  | .dict [] => false
  | .dict (_ :: _) => true

mutual

/-- Python `str(v)` for our value fragment.  Container elements are rendered
with `pyRepr`, as Python does. -/
def pyStr : PyVal → String
  | .null => "None"
  | .bool true => "True"
  | .bool false => "False"
  | .int n => Int.repr n
  | .str s => s
  | .list xs => "[" ++ pyReprList xs ++ "]"
  | .dict d => "\x7b" ++ pyReprDict d ++ "\x7d"

/-- Python `repr(v)`.  String repr is modelled as a plain single-quoted
wrapping (Python additionally escapes quotes/backslashes and may switch
quote characters; no claim depends on that corner). -/
def pyRepr : PyVal → String
  | .null => "None"
  | .bool true => "True"
  | .bool false => "False"
  | .int n => Int.repr n
  | .str s => "\x27" ++ s ++ "\x27"
  | .list xs => "[" ++ pyReprList xs ++ "]"
  | .dict d => "\x7b" ++ pyReprDict d ++ "\x7d"

/-- Comma-separated reprs of list elements. -/
def pyReprList : List PyVal → String
  | [] => ""
  | [x] => pyRepr x
  | x :: xs => pyRepr x ++ ", " ++ pyReprList xs

/-- Comma-separated `key: value` reprs of dict entries. -/
def pyReprDict : List (String × PyVal) → String
  | [] => ""
  | [(k, v)] => "\x27" ++ k ++ "\x27: " ++ pyRepr v
  | (k, v) :: rest => "\x27" ++ k ++ "\x27: " ++ pyRepr v ++ ", " ++ pyReprDict rest

end

/-- The whitespace characters removed by Python `str.strip()` (ASCII
fragment). -/
def isPyWS (c : Char) : Bool :=
  c = ' ' || c = '\t' || c = '\n' || c = '\x0d' || c = '\x0b' || c = '\x0c'

/-- Drop leading whitespace from a character list. -/
def dropLeadWS : List Char → List Char
  | [] => []
  | c :: cs => if isPyWS c then dropLeadWS cs else c :: cs

/-- Python `s.strip()` over our whitespace fragment. -/
def pyStrip (s : String) : String :=
  ⟨(dropLeadWS ((dropLeadWS s.data).reverse)).reverse⟩

/-- `src/lambda_function.py:83` `validate_field(value, field_name)`:
raises `ExpenseError` when `not value or not str(value).strip()`, otherwise
returns `str(value).strip()`. -/
def validate_field (value : PyVal) (field_name : String) : Except PyExc String :=
  if truthy value = false ∨ pyStrip (pyStr value) = "" then
    .error (.expenseError ("El campo \x27" ++ field_name ++ "\x27 es requerido"))
  else
    .ok (pyStrip (pyStr value))

/-- `src/lambda_function.py:20` the fixed category list. -/
def VALID_CATEGORIES : List String :=
  [ "Criptomonedas", "Fintual", "Agua", "Arriendo", "Gasto Común",
    "Internet", "Luz", "Almuerzo", "Comision BC", "Familia",
    "Farmacia", "Metro", "Otros", "Recreacional", "Regalos",
    "Ropa", "Supermercado", "Transporte", "Vacaciones", "Apps",
    "Eventos", "Electronica", "Hogar", "Limpieza", "Ingreso" ]

/-- `", ".join(l)` -/
def joinCommaSp : List String → String
  | [] => ""
  | [x] => x
  | x :: xs => x ++ ", " ++ joinCommaSp xs

/-- `src/lambda_function.py:74` `validate_category`: membership test against
`VALID_CATEGORIES` (string equality, hence case-sensitive); the error message
joins all options. -/
def validate_category (category : String) : Except PyExc String :=
  if ¬ (category ∈ VALID_CATEGORIES) then
    .error (.expenseError ("Categoría inválida. Opciones: " ++ joinCommaSp VALID_CATEGORIES))
  else
    .ok category

/-- ASCII digit test (regex `\d` over the ASCII fragment we model). -/
def isDig (c : Char) : Bool :=
  48 ≤ c.toNat && c.toNat ≤ 57

/-- Numeric value of an ASCII digit character. -/
def dval (c : Char) : Nat := c.toNat - 48

/-- Value of a big-endian ASCII digit list (as Python `int` on digits). -/
def natOfDigits (l : List Char) : Nat :=
  l.foldl (fun a c => 10 * a + dval c) 0

/-- Gregorian leap-year rule, as used by `datetime.date`. -/
def isLeap (y : Nat) : Bool :=
  y % 4 = 0 && (y % 100 != 0 || y % 400 = 0)

/-- Length of a month as checked by the `datetime.date` constructor. -/
def daysInMonth (y m : Nat) : Nat :=
  if m = 2 then (if isLeap y then 29 else 28)
  else if m = 4 ∨ m = 6 ∨ m = 9 ∨ m = 11 then 30
  else 31

/-- CPython `_strptime` matches `%d` with regex `(3[01]|[12]\d|0[1-9]|[1-9])`
and `%m` with `(1[0-2]|0[1-9]|[1-9])`: either two digits whose value lies in
`1..hi` (`hi` = 31 resp. 12), or a single digit `1..9` — single digits are
NOT required to be zero-padded.  Since a successful two-digit match consumes a
digit where the one-digit alternative would need the literal `-` of the
format, regex backtracking never changes the outcome and greedy matching is
exact.  Returns the value and the unconsumed suffix. -/
def parse12 (hi : Nat) : List Char → Option (Nat × List Char)
  | [] => Option.none
  | [c] =>
    if isDig c ∧ 1 ≤ dval c then some (dval c, []) else Option.none
  | c1 :: c2 :: rest =>
    if isDig c1 ∧ isDig c2 then
      if 1 ≤ 10 * dval c1 + dval c2 ∧ 10 * dval c1 + dval c2 ≤ hi then
        some (10 * dval c1 + dval c2, rest)
      else Option.none
    else if isDig c1 ∧ 1 ≤ dval c1 then some (dval c1, c2 :: rest)
    else Option.none

/-- `datetime.strptime(s, "%d-%m-%Y")` succeeds: day (`%d`), literal `-`,
month (`%m`), literal `-`, year `%Y` = exactly four digits, end of string
(strptime rejects unconverted trailing data), and the triple is a valid
`datetime.date` (year ≥ 1 = `MINYEAR`, day within the month). -/
def validDMY (s : String) : Bool :=
  match parse12 31 s.data with
  | some (d, '-' :: r1) =>
    match parse12 12 r1 with
    | some (m, '-' :: r2) =>
      match r2 with
      | [y1, y2, y3, y4] =>
        isDig y1 && isDig y2 && isDig y3 && isDig y4 &&
        decide (1 ≤ natOfDigits [y1, y2, y3, y4]) &&
        decide (d ≤ daysInMonth (natOfDigits [y1, y2, y3, y4]) m)
      | _ => false
    | _ => false
  | _ => false

/-- `src/lambda_function.py:54` `validate_date`: returns the input unchanged
when `strptime(date_str, "%d-%m-%Y")` succeeds, otherwise raises
`ExpenseError`. -/
def validate_date (date_str : String) : Except PyExc String :=
  if validDMY date_str then .ok date_str
  else .error (.expenseError ("Fecha inválida: " ++ date_str ++ ". Use formato DD-MM-YYYY"))

/-- An abstract `decimal.Decimal` value: finite (sign, coefficient, exponent),
infinite, or NaN (quiet and signaling NaN behave identically under `<=`,
both signal `InvalidOperation`). -/
inductive Dec where
  | finite : Bool → Nat → Int → Dec
  | inf : Bool → Dec
  | nan : Dec
deriving DecidableEq, Repr

/-- Case normalisation for the letters of `Infinity` / `sNaN` / `E` — the
decimal numeric-string grammar is matched case-insensitively. -/
def lowerDecChar (c : Char) : Char :=
  if c = 'I' then 'i' else if c = 'N' then 'n' else if c = 'F' then 'f'
  else if c = 'T' then 't' else if c = 'Y' then 'y' else if c = 'S' then 's'
  else if c = 'A' then 'a' else if c = 'E' then 'e' else c

/-- `str(amount).replace(',', '.')` — every comma becomes a dot. -/
def replaceCommas (s : String) : String :=
  ⟨s.data.map (fun c => if c = ',' then '.' else c)⟩

/-- Exponent suffix and end-of-string of a decimal numeric string:
either nothing, or `E[+-]?digits` (case already normalised). -/
def parseDecExp (neg : Bool) (coeffDigits : List Char) (fracLen : Nat) :
    List Char → Option Dec
  | [] => some (.finite neg (natOfDigits coeffDigits) (-(fracLen : Int)))
  | 'e' :: r =>
    let p : Bool × List Char :=
      match r with
      | '+' :: t => (false, t)
      | '-' :: t => (true, t)
      | t => (false, t)
    if p.2 ≠ [] ∧ p.2.all (fun c => isDig c) then
      some (.finite neg (natOfDigits coeffDigits)
        ((if p.1 then -(natOfDigits p.2 : Int) else (natOfDigits p.2 : Int)) - fracLen))
    else Option.none
  | _ => Option.none

/-- Body of a decimal numeric string after the optional sign: digits with an
optional fraction and exponent (at least one digit overall, per the lookahead
`(?=\d|\.\d)` of the CPython grammar), or `Inf`/`Infinity`, or
`[s]NaN` with optional diagnostic digits. -/
def parseDecBody (neg : Bool) (l : List Char) : Option Dec :=
  match l with
  | 'i' :: 'n' :: 'f' :: rest =>
    if rest = [] ∨ rest = ['i', 'n', 'i', 't', 'y'] then some (.inf neg) else Option.none
  | 'n' :: 'a' :: 'n' :: rest =>
    if rest.all (fun c => isDig c) then some .nan else Option.none
  | 's' :: 'n' :: 'a' :: 'n' :: rest =>
    if rest.all (fun c => isDig c) then some .nan else Option.none
  | _ =>
    let ip := l.takeWhile (fun c => isDig c)
    let r1 := l.dropWhile (fun c => isDig c)
    match r1 with
    | '.' :: r2 =>
      let fp := r2.takeWhile (fun c => isDig c)
      let r3 := r2.dropWhile (fun c => isDig c)
      if ip = [] ∧ fp = [] then Option.none
      else parseDecExp neg (ip ++ fp) fp.length r3
    | _ => if ip = [] then Option.none else parseDecExp neg ip 0 r1

/-- `decimal.Decimal(s)` on a string: strips surrounding whitespace, removes
every underscore, then matches the (case-insensitive) decimal numeric-string
grammar `[sign](digits[.digits][Eexp] | .digits[Eexp] | Inf[inity] |
[s]NaN digits*)`.  `Option.none` models `InvalidOperation` from the
constructor.  ASCII digits/whitespace fragment. -/
def parseDecimal (s : String) : Option Dec :=
  let l := dropLeadWS (((dropLeadWS s.data).reverse)) |>.reverse
  let l := (l.filter (fun c => c != '_')).map lowerDecChar
  match l with
  | '+' :: r => parseDecBody false r
  | '-' :: r => parseDecBody true r
  | r => parseDecBody false r

/-- `d <= 0` on decimals (NaN excluded — comparing a NaN signals
`InvalidOperation`, handled at the call site). -/
def decLeZero : Dec → Bool
  | .finite neg c _ => neg || c = 0
  | .inf neg => neg
  | .nan => true

/-- Round-half-even division `a / d` (the rounding used by `Decimal.__format__`). -/
def roundHalfEven (a d : Nat) : Nat :=
  let q := a / d
  let r := a % d
  if 2 * r > d ∨ (2 * r = d ∧ q % 2 = 1) then q + 1 else q

/-- The integer `n` with `n / 100` the two-decimal rounding (half-even) of
`coeff · 10^exp`. -/
def scaled100 (coeff : Nat) (exp : Int) : Nat :=
  if 0 ≤ exp + 2 then coeff * 10 ^ (exp + 2).toNat
  else roundHalfEven coeff (10 ^ (-(exp + 2)).toNat)

/-- Fixed-point rendering of a nonnegative value given as `n / 100`:
integer part, dot, exactly two fraction digits. -/
def fixed2 (n : Nat) : String :=
  Nat.repr (n / 100) ++ "." ++ ⟨[Nat.digitChar (n / 10 % 10), Nat.digitChar (n % 10)]⟩

/-- `f"{d:.2f}"`: fixed-point with two fraction digits, rounding half-even;
special values are rendered by their plain string form (`Decimal.__format__`
ignores the precision for them). -/
def formatDec : Dec → String
  | .finite neg c e => (if neg then "-" else "") ++ fixed2 (scaled100 c e)
  | .inf false => "Infinity"
  | .inf true => "-Infinity"
  | .nan => "NaN"

/-- `src/lambda_function.py:63` `validate_amount`: replace commas by dots,
parse as `Decimal`, reject values `<= 0`, return `f"{d:.2f}"`.  A parse
failure (`InvalidOperation`) and a NaN comparison (`InvalidOperation` from
`<=`) are both caught by the `except` clause and give the same message. -/
def validate_amount (amount : String) : Except PyExc String :=
  match parseDecimal (replaceCommas amount) with
  | Option.none => .error (.expenseError ("Monto inválido: " ++ amount))
  | some .nan => .error (.expenseError ("Monto inválido: " ++ amount))
  | some d =>
    if decLeZero d then .error (.expenseError "El monto debe ser mayor a cero")
    else .ok (formatDec d)

/-- A fully validated expense record (the value built by `parse_payload`),
keys in the source's insertion order. -/
structure Expense where
  date : String
  description : String
  category : String
  amount : String
  account : String
deriving DecidableEq, Repr

/-- First-match association lookup (Python dicts have unique keys, so this is
exactly `dict` access). -/
def alookup (l : List (String × PyVal)) (k : String) : Option PyVal :=
  match l with
  | [] => Option.none
  | (k', v) :: rest => if k' = k then some v else alookup rest k

/-- Python `body.get(key)`: `None` default on a dict; on any other object an
`AttributeError` — only dicts have a `get` attribute here. -/
def pyGet (v : PyVal) (key : String) : Except PyExc PyVal :=
  match v with
  | .dict d => .ok ((alookup d key).getD .null)
  | _ => .error (.attributeError
      ("\x27" ++ pyTypeName v ++ "\x27 object has no attribute \x27get\x27"))

/-- The `'date'` entry of the dict literal in `parse_payload`:
`validate_date(validate_field(body.get('date'), 'date'))`. -/
def fieldDate (body : PyVal) : Except PyExc String := do
  let v ← pyGet body "date"
  let s ← validate_field v "date"
  validate_date s

/-- `validate_field(body.get('description'), 'description')`. -/
def fieldDescription (body : PyVal) : Except PyExc String := do
  let v ← pyGet body "description"
  validate_field v "description"

/-- `validate_category(validate_field(body.get('category'), 'category'))`. -/
def fieldCategory (body : PyVal) : Except PyExc String := do
  let v ← pyGet body "category"
  let s ← validate_field v "category"
  validate_category s

/-- `validate_amount(validate_field(body.get('amount'), 'amount'))`. -/
def fieldAmount (body : PyVal) : Except PyExc String := do
  let v ← pyGet body "amount"
  let s ← validate_field v "amount"
  validate_amount s

/-- `validate_field(body.get('account'), 'account')`. -/
def fieldAccount (body : PyVal) : Except PyExc String := do
  let v ← pyGet body "account"
  validate_field v "account"

/-- The dict literal of `src/lambda_function.py:95`: Python evaluates the five
value expressions left to right (date, description, category, amount,
account), so the first exception aborts the remaining fields. -/
def buildExpense (body : PyVal) : Except PyExc Expense := do
  let date ← fieldDate body
  let description ← fieldDescription body
  let category ← fieldCategory body
  let amount ← fieldAmount body
  let account ← fieldAccount body
  .ok ⟨date, description, category, amount, account⟩

/-- `src/lambda_function.py:90` `parse_payload`.  `jloads` is the external
`json.loads` (its error value carries the `JSONDecodeError` message).  Body
resolution follows `json.loads(event['body']) if isinstance(event.get('body'),
str) else event.get('body', event)`; a `JSONDecodeError` is caught and
re-raised as `ExpenseError("Payload inválido: ...")` (the `KeyError` arm of
the `except` is unreachable: `dict.get` never raises).  Exceptions from the
validators propagate unchanged. -/
def parse_payload (jloads : String → Except String PyVal)
    (event : List (String × PyVal)) : Except PyExc Expense :=
  match alookup event "body" with
  | some (.str s) =>
    match jloads s with
    | .error m => .error (.expenseError ("Payload inválido: " ++ m))
    | .ok b => buildExpense b
  | some b => buildExpense b
  | Option.none => buildExpense (.dict event)

/-- A spreadsheet cell value: a string, or a number entered from the given
decimal string (`float(expense['amount'])` with `USER_ENTERED`; the binary
float value itself is irrelevant to every claim and not modelled). -/
inductive CellVal where
  | s : String → CellVal
  | num : String → CellVal
deriving DecidableEq, Repr

/-- The worksheet state: `rows` is `len(sheet.get_all_values())` (number of
populated rows), `cells` maps (column index, row index) — both 1-based,
column A = 1 — to the stored value. -/
structure Sheet where
  rows : Nat
  cells : Nat → Nat → Option CellVal

/-- Exceptions the Google-Sheets backend can raise:
`gspread.exceptions.APIError` (auth/quota/network surfaced by the API) or any
other unexpected exception. -/
inductive GExc where
  | apiError : String → GExc
  | otherExc : String → GExc
deriving DecidableEq, Repr

/-- How `append_to_sheet` wraps a backend exception into `ExpenseError`
(`src/lambda_function.py:138`). -/
def wrapGExc : GExc → String
  | .apiError m => "Error al conectar con Google Sheets: " ++ m
  | .otherExc m => "Error al insertar datos: " ++ m

/-- The `column_mapping` of `src/lambda_function.py:121` in iteration order:
A=1 date, C=3 description, D=4 category, G=7 amount (as number), H=8 account. -/
def columnMapping (e : Expense) : List (Nat × CellVal) :=
  [(1, .s e.date), (3, .s e.description), (4, .s e.category),
   (7, .num e.amount), (8, .s e.account)]

/-- One `sheet.update(cell, [[value]])`: stores the value at the addressed
cell; a newly populated row extends the populated-row count. -/
def writeCell (s : Sheet) (col row : Nat) (v : CellVal) : Sheet :=
  { rows := max s.rows row,
    cells := fun c r => if c = col ∧ r = row then some v else s.cells c r }

/-- The update loop of `src/lambda_function.py:130`: writes the mapped cells
in order; `failAt i = some exc` means the i-th `sheet.update` call (0-based)
raises `exc`, leaving all earlier writes in place (nothing is rolled back). -/
def runUpdates (failAt : Nat → Option GExc) (row : Nat) :
    Sheet → Nat → List (Nat × CellVal) → Sheet × Option GExc
  | s, _, [] => (s, Option.none)
  | s, i, (c, v) :: rest =>
    match failAt i with
    | some exc => (s, some exc)
    | Option.none => runUpdates failAt row (writeCell s c row v) (i + 1) rest

/-- `src/lambda_function.py:106` `append_to_sheet`.  `preFail` models an
exception raised before any cell write (credentials, `authorize`,
`open_by_key`, `worksheet`, `get_all_values`); `failAt` models per-call
failures of `sheet.update`.  The next row is
`len(sheet.get_all_values()) + 1`; on success the returned range descriptor
is `f"{WORKSHEET_NAME}!A{next_row}:H{next_row}"`.  Every backend exception is
re-raised as `ExpenseError` via `wrapGExc`. -/
def append_to_sheet (worksheetName : String) (preFail : Option GExc)
    (failAt : Nat → Option GExc) (s : Sheet) (e : Expense) :
    Sheet × Except PyExc String :=
  match preFail with
  | some exc => (s, .error (.expenseError (wrapGExc exc)))
  | Option.none =>
    let nextRow := s.rows + 1
    match runUpdates failAt nextRow s 0 (columnMapping e) with
    | (s', some exc) => (s', .error (.expenseError (wrapGExc exc)))
    | (s', Option.none) =>
      (s', .ok (worksheetName ++ "!A" ++ Nat.repr nextRow ++ ":H" ++ Nat.repr nextRow))

/-- JSON string escaping as done by `json.dumps` with `ensure_ascii=False`
(backslash, quote and the control characters that occur in this program's
messages; other code points pass through unchanged). -/
def jsonEscapeChar (c : Char) : String :=
  if c = '"' then "\\\"" else if c = '\\' then "\\\\"
  else if c = '\n' then "\\n" else if c = '\t' then "\\t"
  else if c = '\x0d' then "\\r" else ⟨[c]⟩

/-- Escape a whole string. -/
def jsonEscape (s : String) : String :=
  s.data.foldl (fun acc c => acc ++ jsonEscapeChar c) ""

mutual

/-- `json.dumps(v, ensure_ascii=False)` with the default separators
`", "` / `": "`, keys in insertion order. -/
def jsonDumps : PyVal → String
  | .null => "null"
  | .bool true => "true"
  | .bool false => "false"
  | .int n => Int.repr n
  | .str s => "\"" ++ jsonEscape s ++ "\""
  | .list xs => "[" ++ jsonDumpsList xs ++ "]"
  | .dict d => "\x7b" ++ jsonDumpsDict d ++ "\x7d"

/-- Comma-separated dumps of list elements. -/
def jsonDumpsList : List PyVal → String
  | [] => ""
  | [x] => jsonDumps x
  | x :: xs => jsonDumps x ++ ", " ++ jsonDumpsList xs

/-- Comma-separated `"key": value` dumps of dict entries. -/
def jsonDumpsDict : List (String × PyVal) → String
  | [] => ""
  | [(k, v)] => "\"" ++ jsonEscape k ++ "\": " ++ jsonDumps v
  | (k, v) :: rest =>
    "\"" ++ jsonEscape k ++ "\": " ++ jsonDumps v ++ ", " ++ jsonDumpsDict rest

end

/-- The HTTP-like response envelope returned by the handler. -/
structure Response where
  statusCode : Nat
  headers : List (String × String)
  body : String
deriving DecidableEq, Repr

/-- `src/lambda_function.py:146` `create_response`: fixed headers, JSON body
with non-ASCII preserved. -/
def create_response (status_code : Nat) (body : PyVal) : Response :=
  { statusCode := status_code,
    headers := [("Content-Type", "application/json"),
                ("Access-Control-Allow-Origin", "*")],
    body := jsonDumps body }

/-- The confirmation message built at `src/lambda_function.py:184`. -/
def successMessage (e : Expense) (updated_range : String) : String :=
  "✅ Registro agregado exitosamente:\n📂 Categoría: " ++ e.category ++
  "\n📅 Fecha: " ++ e.date ++
  "\n📝 Descripción: " ++ e.description ++
  "\n💰 Monto: $" ++ e.amount ++
  "\n🏦 Cuenta: " ++ e.account ++
  "\n📊 Celda: " ++ updated_range

/-- The 200 body: message plus `{expense, updated_range}` data. -/
def successBody (e : Expense) (updated_range : String) : PyVal :=
  .dict [("message", .str (successMessage e updated_range)),
         ("data", .dict
           [("expense", .dict
             [("date", .str e.date), ("description", .str e.description),
              ("category", .str e.category), ("amount", .str e.amount),
              ("account", .str e.account)]),
            ("updated_range", .str updated_range)])]

/-- The two `except` arms of `lambda_handler` (`src/lambda_function.py:199`):
`ExpenseError` → 400 with its message; any other exception → 500 with the
fixed generic body (details go only to logs). -/
def errorResponse (e : PyExc) : Response :=
  match e with
  | .expenseError msg => create_response 400 (.dict [("error", .str msg)])
  | _ => create_response 500 (.dict [("error", .str "Error interno del servidor")])

/-- `src/lambda_function.py:158` `lambda_handler`: parse, append, respond.
A total function of the event (and of the modelled backend behaviour), hence
exactly one response per invocation.  The sheet-state effect of the write is
modelled by `append_to_sheet` itself. -/
def lambda_handler (jloads : String → Except String PyVal)
    (worksheetName : String) (preFail : Option GExc)
    (failAt : Nat → Option GExc) (sheet : Sheet)
    (event : List (String × PyVal)) : Response :=
  match parse_payload jloads event with
  | .error e => errorResponse e
  | .ok expense =>
    match (append_to_sheet worksheetName preFail failAt sheet expense).2 with
    | .error e => errorResponse e
    | .ok updated_range => create_response 200 (successBody expense updated_range)

/-- Modelled from the spec (claim C3's wording): the date format with
zero-padded two-digit day, zero-padded two-digit month, four-digit year and a
valid calendar date.  Used to compare the spec's claim with the code's actual
accepted language. -/
def specZeroPaddedDMY (s : String) : Bool :=
  match s.data with
  | [d1, d2, '-', m1, m2, '-', y1, y2, y3, y4] =>
    isDig d1 && isDig d2 && isDig m1 && isDig m2 &&
    isDig y1 && isDig y2 && isDig y3 && isDig y4 &&
    decide (1 ≤ natOfDigits [d1, d2]) &&
    decide (1 ≤ natOfDigits [m1, m2]) && decide (natOfDigits [m1, m2] ≤ 12) &&
    decide (1 ≤ natOfDigits [y1, y2, y3, y4]) &&
    decide (natOfDigits [d1, d2] ≤
      daysInMonth (natOfDigits [y1, y2, y3, y4]) (natOfDigits [m1, m2]))
  | _ => false

/-- Modelled from the spec's words, amended per the counterexample: the input
decomposes as day `-` month `-` year where day and month are one or two ASCII
digits (not necessarily zero-padded), the year is exactly four digits, and
the triple is a valid calendar date of year ≥ 1. -/
def specLaxDMY (s : String) : Prop :=
  ∃ ds ms ys : List Char,
    s.data = ds ++ '-' :: (ms ++ '-' :: ys) ∧
    ds ≠ [] ∧ ds.length ≤ 2 ∧ (∀ c ∈ ds, isDig c = true) ∧
    ms ≠ [] ∧ ms.length ≤ 2 ∧ (∀ c ∈ ms, isDig c = true) ∧
    ys.length = 4 ∧ (∀ c ∈ ys, isDig c = true) ∧
    1 ≤ natOfDigits ds ∧
    1 ≤ natOfDigits ms ∧ natOfDigits ms ≤ 12 ∧
    1 ≤ natOfDigits ys ∧
    natOfDigits ds ≤ daysInMonth (natOfDigits ys) (natOfDigits ms)

/-- Modelled from the spec (claim C4's wording): the string ends in a dot
followed by exactly two digits, i.e. it is "formatted to exactly two decimal
places". -/
def isTwoDecimalString (s : String) : Bool :=
  match s.data.reverse with
  | c2 :: c1 :: c0 :: _ => c0 = '.' && isDig c1 && isDig c2
  | _ => false

/-- C8: `validate_category` fails with `ValidationError` for every string not
exactly (case-sensitively) matching one of the 25 fixed category strings,
with an error message joining all valid options; every member passes through
unchanged. -/
theorem validate_category_exact_membership (c : String) :
    (c ∈ VALID_CATEGORIES → validate_category c = .ok c) ∧
    (c ∉ VALID_CATEGORIES → validate_category c = .error (.expenseError
      ("Categoría inválida. Opciones: " ++ joinCommaSp VALID_CATEGORIES))) ∧
    VALID_CATEGORIES.length = 25 := by
  refine ⟨fun h => ?_, fun h => ?_, rfl⟩
  · simp [validate_category, h]
  · simp [validate_category, h]

/-- Witness for C8: a member passes unchanged, a non-member fails with the
option-listing message. -/
theorem validate_category_exact_membership_witness :
    validate_category "Almuerzo" = .ok "Almuerzo" ∧
    validate_category "almuerzo" = .error (.expenseError
      ("Categoría inválida. Opciones: " ++ joinCommaSp VALID_CATEGORIES)) :=
  ⟨(validate_category_exact_membership "Almuerzo").1 (by decide),
   (validate_category_exact_membership "almuerzo").2.1 (by decide)⟩

/-- Counterexample to C9 as stated: the value `0` is neither missing, nor
empty, nor blank after trimming (`str(0).strip() = "0"`), yet
`validate_field` rejects it (Python truthiness: `not 0` is true) instead of
returning the trimmed string `"0"`. -/
theorem validate_field_falsy_counterexample :
    pyStrip (pyStr (PyVal.int 0)) = "0" ∧
    validate_field (PyVal.int 0) "amount" ≠ .ok "0" ∧
    validate_field (PyVal.int 0) "amount" =
      .error (.expenseError "El campo \x27amount\x27 es requerido") := by
  refine ⟨rfl, ?_, rfl⟩
  decide

/-- C9 amended: `validate_field` fails with `ValidationError` naming the
field for every value that is Python-falsy (missing/`None`, `False`, zero,
empty string or collection) or whose string form is blank after trimming;
otherwise it returns `str(value).strip()`. -/
theorem validate_field_required_amended (v : PyVal) (name : String) :
    ((truthy v = false ∨ pyStrip (pyStr v) = "") →
      validate_field v name = .error (.expenseError
        ("El campo \x27" ++ name ++ "\x27 es requerido"))) ∧
    (truthy v = true → pyStrip (pyStr v) ≠ "" →
      validate_field v name = .ok (pyStrip (pyStr v))) := by
  constructor
  · intro h
    simp only [validate_field, if_pos h]
  · intro h1 h2
    rw [validate_field, if_neg (by simp [h1, h2])]

/-- Witness for C9 amended: a blank string fails naming the field, a padded
non-blank string is returned trimmed, a missing value (`None`) fails. -/
theorem validate_field_required_amended_witness :
    validate_field (PyVal.str "  ") "account" =
      .error (.expenseError "El campo \x27account\x27 es requerido") ∧
    validate_field (PyVal.str " Cash ") "account" = .ok "Cash" ∧
    validate_field PyVal.null "date" =
      .error (.expenseError "El campo \x27date\x27 es requerido") :=
  ⟨(validate_field_required_amended (PyVal.str "  ") "account").1 (Or.inr rfl),
   (validate_field_required_amended (PyVal.str " Cash ") "account").2 rfl (by decide),
   (validate_field_required_amended PyVal.null "date").1 (Or.inl rfl)⟩

/-- `Except` bind on a success reduces to the continuation. -/
theorem bindOkEq {ε α β : Type} (a : α) (f : α → Except ε β) :
    (Except.ok a >>= f) = f a := rfl

/-- `Except` bind on an error short-circuits. -/
theorem bindErrorEq {ε α β : Type} (e : ε) (f : α → Except ε β) :
    ((Except.error e : Except ε α) >>= f) = Except.error e := rfl

/-- C6: the five fields are validated in the fixed source order (date,
description, category, amount, account); the first field whose validation
raises aborts `buildExpense` with exactly that error, independently of
whatever later fields contain (fail-fast); when all five succeed, the record
collects the five validated values.  Moreover `validate_required`
(`validate_field`) runs before the field-specific validator for date,
category and amount: its error wins. -/
theorem buildExpense_failFast (b : PyVal) :
    (∀ e, fieldDate b = .error e → buildExpense b = .error e) ∧
    (∀ x1 e, fieldDate b = .ok x1 → fieldDescription b = .error e →
      buildExpense b = .error e) ∧
    (∀ x1 x2 e, fieldDate b = .ok x1 → fieldDescription b = .ok x2 →
      fieldCategory b = .error e → buildExpense b = .error e) ∧
    (∀ x1 x2 x3 e, fieldDate b = .ok x1 → fieldDescription b = .ok x2 →
      fieldCategory b = .ok x3 → fieldAmount b = .error e →
      buildExpense b = .error e) ∧
    (∀ x1 x2 x3 x4 e, fieldDate b = .ok x1 → fieldDescription b = .ok x2 →
      fieldCategory b = .ok x3 → fieldAmount b = .ok x4 →
      fieldAccount b = .error e → buildExpense b = .error e) ∧
    (∀ x1 x2 x3 x4 x5, fieldDate b = .ok x1 → fieldDescription b = .ok x2 →
      fieldCategory b = .ok x3 → fieldAmount b = .ok x4 →
      fieldAccount b = .ok x5 →
      buildExpense b = .ok ⟨x1, x2, x3, x4, x5⟩) ∧
    (∀ v e, pyGet b "date" = .ok v → validate_field v "date" = .error e →
      fieldDate b = .error e) ∧
    (∀ v e, pyGet b "category" = .ok v → validate_field v "category" = .error e →
      fieldCategory b = .error e) ∧
    (∀ v e, pyGet b "amount" = .ok v → validate_field v "amount" = .error e →
      fieldAmount b = .error e) := by
  refine ⟨?_, ?_, ?_, ?_, ?_, ?_, ?_, ?_, ?_⟩
  · intro e h
    simp only [buildExpense, h, bindErrorEq]
  · intro x1 e h1 h2
    simp only [buildExpense, h1, h2, bindOkEq, bindErrorEq]
  · intro x1 x2 e h1 h2 h3
    simp only [buildExpense, h1, h2, h3, bindOkEq, bindErrorEq]
  · intro x1 x2 x3 e h1 h2 h3 h4
    simp only [buildExpense, h1, h2, h3, h4, bindOkEq, bindErrorEq]
  · intro x1 x2 x3 x4 e h1 h2 h3 h4 h5
    simp only [buildExpense, h1, h2, h3, h4, h5, bindOkEq, bindErrorEq]
  · intro x1 x2 x3 x4 x5 h1 h2 h3 h4 h5
    simp only [buildExpense, h1, h2, h3, h4, h5, bindOkEq]
  · intro v e h1 h2
    simp only [fieldDate, h1, h2, bindOkEq, bindErrorEq]
  · intro v e h1 h2
    simp only [fieldCategory, h1, h2, bindOkEq, bindErrorEq]
  · intro v e h1 h2
    simp only [fieldAmount, h1, h2, bindOkEq, bindErrorEq]

/-- Witness for C6: a body whose date is malformed AND whose description is
missing fails with the date error only (fail-fast); a body with an empty
date string fails with the `required` error, not the format error; a fully
valid body yields the validated record. -/
theorem buildExpense_failFast_witness :
    buildExpense (PyVal.dict [("date", .str "2025-10-24"), ("category", .str "Nope")]) =
      .error (.expenseError "Fecha inválida: 2025-10-24. Use formato DD-MM-YYYY") ∧
    buildExpense (PyVal.dict [("date", .str " "), ("category", .str "Nope")]) =
      .error (.expenseError "El campo \x27date\x27 es requerido") ∧
    buildExpense (PyVal.dict [("date", .str "24-10-2025"), ("description", .str "Coffee"),
        ("category", .str "Almuerzo"), ("amount", .str "3.5"), ("account", .str "Cash")]) =
      .ok ⟨"24-10-2025", "Coffee", "Almuerzo", "3.50", "Cash"⟩ := by
  refine ⟨?_, ?_, ?_⟩
  · exact (buildExpense_failFast _).1 _ (by decide)
  · exact (buildExpense_failFast _).1 _ (by decide)
  · exact (buildExpense_failFast _).2.2.2.2.2.1 _ _ _ _ _
      (by decide) (by decide) (by decide) (by decide) (by decide)

/-- `validate_field` only errors with `ExpenseError`. -/
theorem validate_field_error_exp (v : PyVal) (n : String) (e : PyExc)
    (h : validate_field v n = .error e) : ∃ m, e = .expenseError m := by
  unfold validate_field at h
  split at h
  · injection h with h2
    exact ⟨_, h2.symm⟩
  · exact absurd h (by simp)

/-- `validate_date` only errors with `ExpenseError`. -/
theorem validate_date_error_exp (s : String) (e : PyExc)
    (h : validate_date s = .error e) : ∃ m, e = .expenseError m := by
  unfold validate_date at h
  split at h
  · exact absurd h (by simp)
  · injection h with h2
    exact ⟨_, h2.symm⟩

/-- `validate_category` only errors with `ExpenseError`. -/
theorem validate_category_error_exp (s : String) (e : PyExc)
    (h : validate_category s = .error e) : ∃ m, e = .expenseError m := by
  unfold validate_category at h
  split at h
  · injection h with h2
    exact ⟨_, h2.symm⟩
  · exact absurd h (by simp)

/-- `validate_amount` only errors with `ExpenseError`. -/
theorem validate_amount_error_exp (s : String) (e : PyExc)
    (h : validate_amount s = .error e) : ∃ m, e = .expenseError m := by
  unfold validate_amount at h
  split at h
  · injection h with h2
    exact ⟨_, h2.symm⟩
  · injection h with h2
    exact ⟨_, h2.symm⟩
  · split at h
    · injection h with h2
      exact ⟨_, h2.symm⟩
    · exact absurd h (by simp)

/-- A successful `validate_field` implies the raw value was truthy. -/
theorem validate_field_ok_truthy (v : PyVal) (n s : String)
    (h : validate_field v n = .ok s) : truthy v = true := by
  unfold validate_field at h
  split at h
  · exact absurd h (by simp)
  · rename_i hcond
    cases htv : truthy v with
    | false => exact absurd (Or.inl htv) hcond
    | true => rfl

/-- On a dict body, `fieldDate` reduces to the validator chain on the looked
up value. -/
theorem fieldDate_dict (d : List (String × PyVal)) :
    fieldDate (.dict d) =
      (validate_field ((alookup d "date").getD .null) "date" >>= validate_date) := rfl

/-- On a dict body, `fieldDescription` reduces to `validate_field`. -/
theorem fieldDescription_dict (d : List (String × PyVal)) :
    fieldDescription (.dict d) =
      validate_field ((alookup d "description").getD .null) "description" := rfl

/-- On a dict body, `fieldCategory` reduces to the validator chain. -/
theorem fieldCategory_dict (d : List (String × PyVal)) :
    fieldCategory (.dict d) =
      (validate_field ((alookup d "category").getD .null) "category" >>= validate_category) := rfl

/-- On a dict body, `fieldAmount` reduces to the validator chain. -/
theorem fieldAmount_dict (d : List (String × PyVal)) :
    fieldAmount (.dict d) =
      (validate_field ((alookup d "amount").getD .null) "amount" >>= validate_amount) := rfl

/-- On a dict body, `fieldAccount` reduces to `validate_field`. -/
theorem fieldAccount_dict (d : List (String × PyVal)) :
    fieldAccount (.dict d) =
      validate_field ((alookup d "account").getD .null) "account" := rfl

/-- On a dict body every field error is an `ExpenseError`. -/
theorem fieldDate_dict_error_exp (d : List (String × PyVal)) (e : PyExc)
    (h : fieldDate (.dict d) = .error e) : ∃ m, e = .expenseError m := by
  rw [fieldDate_dict] at h
  cases hf : validate_field ((alookup d "date").getD .null) "date" with
  | error e1 =>
    rw [hf, bindErrorEq] at h
    injection h with h2
    exact validate_field_error_exp _ _ _ (by rw [hf, h2])
  | ok s =>
    rw [hf, bindOkEq] at h
    exact validate_date_error_exp _ _ h

/-- On a dict body every category-field error is an `ExpenseError`. -/
theorem fieldCategory_dict_error_exp (d : List (String × PyVal)) (e : PyExc)
    (h : fieldCategory (.dict d) = .error e) : ∃ m, e = .expenseError m := by
  rw [fieldCategory_dict] at h
  cases hf : validate_field ((alookup d "category").getD .null) "category" with
  | error e1 =>
    rw [hf, bindErrorEq] at h
    injection h with h2
    exact validate_field_error_exp _ _ _ (by rw [hf, h2])
  | ok s =>
    rw [hf, bindOkEq] at h
    exact validate_category_error_exp _ _ h

/-- On a dict body every amount-field error is an `ExpenseError`. -/
theorem fieldAmount_dict_error_exp (d : List (String × PyVal)) (e : PyExc)
    (h : fieldAmount (.dict d) = .error e) : ∃ m, e = .expenseError m := by
  rw [fieldAmount_dict] at h
  cases hf : validate_field ((alookup d "amount").getD .null) "amount" with
  | error e1 =>
    rw [hf, bindErrorEq] at h
    injection h with h2
    exact validate_field_error_exp _ _ _ (by rw [hf, h2])
  | ok s =>
    rw [hf, bindOkEq] at h
    exact validate_amount_error_exp _ _ h

/-- On a dict body, `buildExpense` either succeeds or raises an
`ExpenseError` (never any other exception class). -/
theorem buildExpense_dict_error_exp (d : List (String × PyVal)) (e : PyExc)
    (h : buildExpense (.dict d) = .error e) : ∃ m, e = .expenseError m := by
  unfold buildExpense at h
  cases h1 : fieldDate (.dict d) with
  | error e1 =>
    rw [h1, bindErrorEq] at h
    injection h with h2
    subst h2
    exact fieldDate_dict_error_exp _ _ h1
  | ok x1 =>
  rw [h1, bindOkEq] at h
  cases h2 : fieldDescription (.dict d) with
  | error e2 =>
    rw [h2, bindErrorEq] at h
    injection h with hh
    subst hh
    exact validate_field_error_exp _ _ _ ((fieldDescription_dict d) ▸ h2)
  | ok x2 =>
  rw [h2, bindOkEq] at h
  cases h3 : fieldCategory (.dict d) with
  | error e3 =>
    rw [h3, bindErrorEq] at h
    injection h with hh
    subst hh
    exact fieldCategory_dict_error_exp _ _ h3
  | ok x3 =>
  rw [h3, bindOkEq] at h
  cases h4 : fieldAmount (.dict d) with
  | error e4 =>
    rw [h4, bindErrorEq] at h
    injection h with hh
    subst hh
    exact fieldAmount_dict_error_exp _ _ h4
  | ok x4 =>
  rw [h4, bindOkEq] at h
  cases h5 : fieldAccount (.dict d) with
  | error e5 =>
    rw [h5, bindErrorEq] at h
    injection h with hh
    subst hh
    exact validate_field_error_exp _ _ _ ((fieldAccount_dict d) ▸ h5)
  | ok x5 =>
    rw [h5, bindOkEq] at h
    exact absurd h (by simp)

/-- A truthy looked-up-with-default value means the key was present. -/
theorem alookup_isSome_of_truthy (d : List (String × PyVal)) (f : String)
    (h : truthy ((alookup d f).getD .null) = true) : (alookup d f).isSome = true := by
  cases hl : alookup d f with
  | none =>
    rw [hl] at h
    exact absurd h (by simp [truthy])
  | some v => rfl

/-- A successful `buildExpense` on a dict implies every required top-level
key was present. -/
theorem buildExpense_ok_lookups (d : List (String × PyVal)) (r : Expense)
    (h : buildExpense (.dict d) = .ok r) :
    (alookup d "date").isSome = true ∧ (alookup d "description").isSome = true ∧
    (alookup d "category").isSome = true ∧ (alookup d "amount").isSome = true ∧
    (alookup d "account").isSome = true := by
  unfold buildExpense at h
  cases h1 : fieldDate (.dict d) with
  | error e1 => rw [h1, bindErrorEq] at h; exact absurd h (by simp)
  | ok x1 =>
  rw [h1, bindOkEq] at h
  cases h2 : fieldDescription (.dict d) with
  | error e2 => rw [h2, bindErrorEq] at h; exact absurd h (by simp)
  | ok x2 =>
  rw [h2, bindOkEq] at h
  cases h3 : fieldCategory (.dict d) with
  | error e3 => rw [h3, bindErrorEq] at h; exact absurd h (by simp)
  | ok x3 =>
  rw [h3, bindOkEq] at h
  cases h4 : fieldAmount (.dict d) with
  | error e4 => rw [h4, bindErrorEq] at h; exact absurd h (by simp)
  | ok x4 =>
  rw [h4, bindOkEq] at h
  cases h5 : fieldAccount (.dict d) with
  | error e5 => rw [h5, bindErrorEq] at h; exact absurd h (by simp)
  | ok x5 =>
  refine ⟨?_, ?_, ?_, ?_, ?_⟩
  · rw [fieldDate_dict] at h1
    cases hf : validate_field ((alookup d "date").getD .null) "date" with
    | error e => rw [hf, bindErrorEq] at h1; exact absurd h1 (by simp)
    | ok s =>
      exact alookup_isSome_of_truthy _ _ (validate_field_ok_truthy _ _ _ hf)
  · rw [fieldDescription_dict] at h2
    exact alookup_isSome_of_truthy _ _ (validate_field_ok_truthy _ _ _ h2)
  · rw [fieldCategory_dict] at h3
    cases hf : validate_field ((alookup d "category").getD .null) "category" with
    | error e => rw [hf, bindErrorEq] at h3; exact absurd h3 (by simp)
    | ok s =>
      exact alookup_isSome_of_truthy _ _ (validate_field_ok_truthy _ _ _ hf)
  · rw [fieldAmount_dict] at h4
    cases hf : validate_field ((alookup d "amount").getD .null) "amount" with
    | error e => rw [hf, bindErrorEq] at h4; exact absurd h4 (by simp)
    | ok s =>
      exact alookup_isSome_of_truthy _ _ (validate_field_ok_truthy _ _ _ hf)
  · rw [fieldAccount_dict] at h5
    exact alookup_isSome_of_truthy _ _ (validate_field_ok_truthy _ _ _ h5)

/-- When the `body` key holds a non-string value, the parser uses it
directly. -/
theorem parse_payload_direct (jl : String → Except String PyVal)
    (event : List (String × PyVal)) (v : PyVal)
    (h : alookup event "body" = some v) (hs : ∀ t, v ≠ .str t) :
    parse_payload jl event = buildExpense v := by
  cases v with
  | str t => exact absurd rfl (hs t)
  | null => unfold parse_payload; rw [h]
  | bool b => unfold parse_payload; rw [h]
  | int n => unfold parse_payload; rw [h]
  | list l => unfold parse_payload; rw [h]
  | dict d => unfold parse_payload; rw [h]

/-- C5: body resolution of the payload parser.  A string body is fed to the
JSON parser: a decode failure is re-raised as `ValidationError`
(`ExpenseError "Payload inválido: ..."`), a decoded value becomes the body; a
present non-string body is used directly; an absent body makes the whole
event the body; and on a dict body a missing required top-level field always
produces a `ValidationError`. -/
theorem parse_payload_body_resolution (jl : String → Except String PyVal)
    (event : List (String × PyVal)) (s : String) (v : PyVal) (m : String) :
    (alookup event "body" = some (.str s) → jl s = .error m →
      parse_payload jl event = .error (.expenseError ("Payload inválido: " ++ m))) ∧
    (alookup event "body" = some (.str s) → jl s = .ok v →
      parse_payload jl event = buildExpense v) ∧
    (alookup event "body" = some v → (∀ t, v ≠ .str t) →
      parse_payload jl event = buildExpense v) ∧
    (alookup event "body" = Option.none →
      parse_payload jl event = buildExpense (.dict event)) ∧
    (∀ d : List (String × PyVal),
      (alookup d "date" = Option.none ∨ alookup d "description" = Option.none ∨
       alookup d "category" = Option.none ∨ alookup d "amount" = Option.none ∨
       alookup d "account" = Option.none) →
      ∃ msg, buildExpense (.dict d) = .error (.expenseError msg)) := by
  refine ⟨?_, ?_, ?_, ?_, ?_⟩
  · intro h hj
    simp only [parse_payload, h, hj]
  · intro h hj
    simp only [parse_payload, h, hj]
  · exact parse_payload_direct jl event v
  · intro h
    unfold parse_payload
    rw [h]
  · intro d hmiss
    cases hb : buildExpense (.dict d) with
    | error e =>
      obtain ⟨mm, rfl⟩ := buildExpense_dict_error_exp d e hb
      exact ⟨mm, rfl⟩
    | ok r =>
      exfalso
      have hl := buildExpense_ok_lookups d r hb
      rcases hmiss with h | h | h | h | h <;> rw [h] at hl <;> simp at hl

/-- A fixed stand-in for `json.loads` used by witnesses: fails on `"bad"`,
decodes everything else to the integer 3. -/
def jlFix : String → Except String PyVal := fun t =>
  if t = "bad" then .error "Expecting value: line 1 column 1 (char 0)"
  else .ok (.int 3)

/-- Witness for C5: each resolution branch at a concrete event. -/
theorem parse_payload_body_resolution_witness :
    parse_payload jlFix [("body", .str "bad")] =
      .error (.expenseError "Payload inválido: Expecting value: line 1 column 1 (char 0)") ∧
    parse_payload jlFix [("body", .str "x")] = buildExpense (.int 3) ∧
    parse_payload jlFix [("body", .dict [])] = buildExpense (.dict []) ∧
    parse_payload jlFix [("x", .int 1)] = buildExpense (.dict [("x", .int 1)]) ∧
    (∃ msg, buildExpense (.dict [("date", .str "24-10-2025")]) =
      .error (.expenseError msg)) := by
  refine ⟨?_, ?_, ?_, ?_, ?_⟩
  · exact (parse_payload_body_resolution jlFix _ "bad" (.int 3) _).1 rfl rfl
  · exact (parse_payload_body_resolution jlFix _ "x" (.int 3) "").2.1 rfl rfl
  · exact (parse_payload_body_resolution jlFix _ "" (.dict []) "").2.2.1 rfl
      (fun t h => PyVal.noConfusion h)
  · exact (parse_payload_body_resolution jlFix _ "" (.int 0) "").2.2.2.1 rfl
  · exact (parse_payload_body_resolution jlFix [] "" (.int 0) "").2.2.2.2 _
      (Or.inr (Or.inl rfl))

/-- On any non-dict body, the first field access `body.get('date')` raises an
`AttributeError` naming the body's type. -/
theorem buildExpense_nodict (v : PyVal) (hd : ∀ d, v ≠ .dict d) :
    buildExpense v = .error (.attributeError
      ("\x27" ++ pyTypeName v ++ "\x27 object has no attribute \x27get\x27")) := by
  cases v with
  | dict d => exact absurd rfl (hd d)
  | null => rfl
  | bool b => rfl
  | int n => rfl
  | str s => rfl
  | list l => rfl

/-- An empty worksheet, used by concrete invocations. -/
def emptySheet : Sheet := ⟨0, fun _ _ => Option.none⟩

/-- A backend failure schedule under which no call fails. -/
def neverFail : Nat → Option GExc := fun _ => Option.none

/-- C10: when the `body` key is present but holds neither a string nor a
dict (e.g. `None` or a list), or holds a string that decodes to a non-dict,
the parser's `body.get` raises an `AttributeError` — not an `ExpenseError` —
and the handler therefore answers 500, not 400. -/
theorem nondict_body_gives_500 (jl : String → Except String PyVal)
    (ws : String) (pf : Option GExc) (fa : Nat → Option GExc) (sheet : Sheet)
    (event : List (String × PyVal)) (v : PyVal) (s : String) :
    (alookup event "body" = some v → (∀ t, v ≠ .str t) → (∀ d, v ≠ .dict d) →
      parse_payload jl event = .error (.attributeError
        ("\x27" ++ pyTypeName v ++ "\x27 object has no attribute \x27get\x27")) ∧
      (PyExc.attributeError
        ("\x27" ++ pyTypeName v ++ "\x27 object has no attribute \x27get\x27")).isExpense = false ∧
      lambda_handler jl ws pf fa sheet event =
        create_response 500 (.dict [("error", .str "Error interno del servidor")])) ∧
    (alookup event "body" = some (.str s) → jl s = .ok v → (∀ d, v ≠ .dict d) →
      parse_payload jl event = .error (.attributeError
        ("\x27" ++ pyTypeName v ++ "\x27 object has no attribute \x27get\x27")) ∧
      lambda_handler jl ws pf fa sheet event =
        create_response 500 (.dict [("error", .str "Error interno del servidor")])) := by
  constructor
  · intro h hs hd
    have hp : parse_payload jl event = .error (.attributeError
        ("\x27" ++ pyTypeName v ++ "\x27 object has no attribute \x27get\x27")) := by
      rw [parse_payload_direct jl event v h hs, buildExpense_nodict v hd]
    refine ⟨hp, rfl, ?_⟩
    unfold lambda_handler
    rw [hp]
    rfl
  · intro h hj hd
    have hp : parse_payload jl event = .error (.attributeError
        ("\x27" ++ pyTypeName v ++ "\x27 object has no attribute \x27get\x27")) := by
      have hb : parse_payload jl event = buildExpense v := by
        simp only [parse_payload, h, hj]
      rw [hb, buildExpense_nodict v hd]
    refine ⟨hp, ?_⟩
    unfold lambda_handler
    rw [hp]
    rfl

/-- Witness for C10: a `None` body and a string body decoding to a list both
end in the 500 response. -/
theorem nondict_body_gives_500_witness :
    parse_payload jlFix [("body", PyVal.null)] =
      .error (.attributeError "\x27NoneType\x27 object has no attribute \x27get\x27") ∧
    lambda_handler jlFix "Hoja" Option.none neverFail emptySheet [("body", PyVal.null)] =
      create_response 500 (.dict [("error", .str "Error interno del servidor")]) ∧
    parse_payload jlFix [("body", PyVal.str "3")] =
      .error (.attributeError "\x27int\x27 object has no attribute \x27get\x27") ∧
    lambda_handler jlFix "Hoja" Option.none neverFail emptySheet [("body", PyVal.str "3")] =
      create_response 500 (.dict [("error", .str "Error interno del servidor")]) := by
  have h1 := (nondict_body_gives_500 jlFix "Hoja" Option.none neverFail emptySheet
    [("body", PyVal.null)] PyVal.null "").1 rfl
    (fun t h => PyVal.noConfusion h) (fun d h => PyVal.noConfusion h)
  have h2 := (nondict_body_gives_500 jlFix "Hoja" Option.none neverFail emptySheet
    [("body", PyVal.str "3")] (PyVal.int 3) "3").2 rfl rfl
    (fun d h => PyVal.noConfusion h)
  exact ⟨h1.1, h1.2.2, h2.1, h2.2⟩

/-- C7: on a successful write, `append_to_sheet` targets row
`rows + 1` (one past the populated-row count), writes exactly columns
1, 3, 4, 7, 8 (A, C, D, G, H) of that row — date, description, category,
amount-as-number, account — leaves every other column (in particular 2, 5, 6)
and every other row untouched, and returns the range descriptor
`worksheet!A<row>:H<row>`. -/
theorem append_success_frame (ws : String) (s : Sheet) (e : Expense) :
    (append_to_sheet ws Option.none neverFail s e).2 =
      .ok (ws ++ "!A" ++ Nat.repr (s.rows + 1) ++ ":H" ++ Nat.repr (s.rows + 1)) ∧
    (append_to_sheet ws Option.none neverFail s e).1.rows = s.rows + 1 ∧
    (append_to_sheet ws Option.none neverFail s e).1.cells 1 (s.rows + 1) = some (.s e.date) ∧
    (append_to_sheet ws Option.none neverFail s e).1.cells 3 (s.rows + 1) = some (.s e.description) ∧
    (append_to_sheet ws Option.none neverFail s e).1.cells 4 (s.rows + 1) = some (.s e.category) ∧
    (append_to_sheet ws Option.none neverFail s e).1.cells 7 (s.rows + 1) = some (.num e.amount) ∧
    (append_to_sheet ws Option.none neverFail s e).1.cells 8 (s.rows + 1) = some (.s e.account) ∧
    (∀ col row, col ≠ 1 → col ≠ 3 → col ≠ 4 → col ≠ 7 → col ≠ 8 →
      (append_to_sheet ws Option.none neverFail s e).1.cells col row = s.cells col row) ∧
    (∀ col row, row ≠ s.rows + 1 →
      (append_to_sheet ws Option.none neverFail s e).1.cells col row = s.cells col row) := by
  have hcells : (append_to_sheet ws Option.none neverFail s e).1.cells = fun c r =>
      if c = 8 ∧ r = s.rows + 1 then some (.s e.account)
      else if c = 7 ∧ r = s.rows + 1 then some (.num e.amount)
      else if c = 4 ∧ r = s.rows + 1 then some (.s e.category)
      else if c = 3 ∧ r = s.rows + 1 then some (.s e.description)
      else if c = 1 ∧ r = s.rows + 1 then some (.s e.date)
      else s.cells c r := rfl
  have hrows : (append_to_sheet ws Option.none neverFail s e).1.rows =
      max (max (max (max (max s.rows (s.rows + 1)) (s.rows + 1)) (s.rows + 1)) (s.rows + 1))
        (s.rows + 1) := rfl
  refine ⟨rfl, by rw [hrows]; omega, ?_, ?_, ?_, ?_, ?_, ?_, ?_⟩
  · rw [hcells]; simp
  · rw [hcells]; simp
  · rw [hcells]; simp
  · rw [hcells]; simp
  · rw [hcells]; simp
  · intro col row h1 h3 h4 h7 h8
    rw [hcells]
    simp [h1, h3, h4, h7, h8]
  · intro col row hrow
    rw [hcells]
    simp [hrow]

/-- Witness for C7: concrete run on an empty sheet — range `Hoja!A1:H1`,
the five mapped cells written in row 1, column B (2) and row 2 untouched. -/
theorem append_success_frame_witness :
    (append_to_sheet "Hoja" Option.none neverFail emptySheet
      ⟨"24-10-2025", "Coffee", "Almuerzo", "3.50", "Cash"⟩).2 = .ok "Hoja!A1:H1" ∧
    (append_to_sheet "Hoja" Option.none neverFail emptySheet
      ⟨"24-10-2025", "Coffee", "Almuerzo", "3.50", "Cash"⟩).1.cells 1 1 = some (.s "24-10-2025") ∧
    (append_to_sheet "Hoja" Option.none neverFail emptySheet
      ⟨"24-10-2025", "Coffee", "Almuerzo", "3.50", "Cash"⟩).1.cells 2 1 = Option.none ∧
    (append_to_sheet "Hoja" Option.none neverFail emptySheet
      ⟨"24-10-2025", "Coffee", "Almuerzo", "3.50", "Cash"⟩).1.cells 5 2 = Option.none := by
  have h := append_success_frame "Hoja" emptySheet
    ⟨"24-10-2025", "Coffee", "Almuerzo", "3.50", "Cash"⟩
  refine ⟨h.1, h.2.2.1, ?_, ?_⟩
  · have := h.2.2.2.2.2.2.2.1 2 1 (by decide) (by decide) (by decide) (by decide) (by decide)
    rw [this]
    rfl
  · have := h.2.2.2.2.2.2.2.2 5 2 (by decide)
    rw [this]
    rfl

/-- Column of the i-th update of the write loop (A, C, D, G, H). -/
def colAt : Nat → Nat
  | 0 => 1
  | 1 => 3
  | 2 => 4
  | 3 => 7
  | _ => 8

/-- Value of the i-th update of the write loop. -/
def cellAt (e : Expense) : Nat → CellVal
  | 0 => .s e.date
  | 1 => .s e.description
  | 2 => .s e.category
  | 3 => .num e.amount
  | _ => .s e.account

/-- A backend schedule whose third `sheet.update` call raises an `APIError`. -/
def failAfter2 : Nat → Option GExc :=
  fun i => if i < 2 then Option.none else some (.apiError "quota")

/-- Counterexample to C1 as stated: when the backend write sequence fails
after 2 of the 5 cell writes, the write reports an error, yet cells A and C
of the target row HAVE been written (and D has not) — the operation is not
all-or-nothing. -/
theorem append_atomicity_counterexample :
    (append_to_sheet "Hoja" Option.none failAfter2 emptySheet
      ⟨"24-10-2025", "Coffee", "Almuerzo", "3.50", "Cash"⟩).2 =
      .error (.expenseError "Error al conectar con Google Sheets: quota") ∧
    (append_to_sheet "Hoja" Option.none failAfter2 emptySheet
      ⟨"24-10-2025", "Coffee", "Almuerzo", "3.50", "Cash"⟩).1.cells 1 1 =
      some (.s "24-10-2025") ∧
    (append_to_sheet "Hoja" Option.none failAfter2 emptySheet
      ⟨"24-10-2025", "Coffee", "Almuerzo", "3.50", "Cash"⟩).1.cells 3 1 =
      some (.s "Coffee") ∧
    (append_to_sheet "Hoja" Option.none failAfter2 emptySheet
      ⟨"24-10-2025", "Coffee", "Almuerzo", "3.50", "Cash"⟩).1.cells 4 1 = Option.none :=
  ⟨rfl, rfl, rfl, rfl⟩

/-- C1 amended: the write is NOT atomic.  If the backend write sequence
fails at the (k+1)-th cell write (k of 5 writes already succeeded), the
call raises a wrapped `ExpenseError`, the first k mapped cells of the target
row remain written, the later mapped cells are untouched, every other row is
untouched, and nothing is rolled back; a failure before any write (auth,
open, row count) leaves the sheet entirely unchanged. -/
theorem append_partial_write_on_failure (ws : String) (s : Sheet) (e : Expense)
    (fa : Nat → Option GExc) (k : Nat) (exc : GExc)
    (hk : k < 5) (hpre : ∀ i, i < k → fa i = Option.none) (hfk : fa k = some exc) :
    (append_to_sheet ws Option.none fa s e).2 =
      .error (.expenseError (wrapGExc exc)) ∧
    (∀ i, i < k →
      (append_to_sheet ws Option.none fa s e).1.cells (colAt i) (s.rows + 1) =
        some (cellAt e i)) ∧
    (∀ i, k ≤ i → i < 5 →
      (append_to_sheet ws Option.none fa s e).1.cells (colAt i) (s.rows + 1) =
        s.cells (colAt i) (s.rows + 1)) ∧
    (∀ col row, row ≠ s.rows + 1 →
      (append_to_sheet ws Option.none fa s e).1.cells col row = s.cells col row) ∧
    (∀ exc2, append_to_sheet ws (some exc2) fa s e =
      (s, .error (.expenseError (wrapGExc exc2)))) := by
  interval_cases k
  · have happ : append_to_sheet ws Option.none fa s e =
        (s, .error (.expenseError (wrapGExc exc))) := by
      simp only [append_to_sheet, columnMapping, runUpdates, hfk]
    refine ⟨by rw [happ], ?_, ?_, ?_, fun exc2 => rfl⟩
    · intro i hi
      omega
    · intro i h2 h5
      rw [happ]
    · intro col row hrow
      rw [happ]
  · have h0 := hpre 0 (by omega)
    have happ : append_to_sheet ws Option.none fa s e =
        (writeCell s 1 (s.rows + 1) (.s e.date),
         .error (.expenseError (wrapGExc exc))) := by
      simp only [append_to_sheet, columnMapping, runUpdates, h0, hfk]
    refine ⟨by rw [happ], ?_, ?_, ?_, fun exc2 => rfl⟩
    · intro i hi
      interval_cases i
      rw [happ]
      simp [writeCell, colAt, cellAt]
    · intro i h2 h5
      rw [happ]
      interval_cases i <;> simp [writeCell, colAt]
    · intro col row hrow
      rw [happ]
      simp [writeCell, hrow]
  · have h0 := hpre 0 (by omega)
    have h1 := hpre 1 (by omega)
    have happ : append_to_sheet ws Option.none fa s e =
        (writeCell (writeCell s 1 (s.rows + 1) (.s e.date)) 3 (s.rows + 1)
          (.s e.description),
         .error (.expenseError (wrapGExc exc))) := by
      simp only [append_to_sheet, columnMapping, runUpdates, h0, h1, hfk]
    refine ⟨by rw [happ], ?_, ?_, ?_, fun exc2 => rfl⟩
    · intro i hi
      interval_cases i <;> (rw [happ]; simp [writeCell, colAt, cellAt])
    · intro i h2 h5
      rw [happ]
      interval_cases i <;> simp [writeCell, colAt]
    · intro col row hrow
      rw [happ]
      simp [writeCell, hrow]
  · have h0 := hpre 0 (by omega)
    have h1 := hpre 1 (by omega)
    have h2 := hpre 2 (by omega)
    have happ : append_to_sheet ws Option.none fa s e =
        (writeCell (writeCell (writeCell s 1 (s.rows + 1) (.s e.date)) 3 (s.rows + 1)
          (.s e.description)) 4 (s.rows + 1) (.s e.category),
         .error (.expenseError (wrapGExc exc))) := by
      simp only [append_to_sheet, columnMapping, runUpdates, h0, h1, h2, hfk]
    refine ⟨by rw [happ], ?_, ?_, ?_, fun exc2 => rfl⟩
    · intro i hi
      interval_cases i <;> (rw [happ]; simp [writeCell, colAt, cellAt])
    · intro i hge h5
      rw [happ]
      interval_cases i <;> simp [writeCell, colAt]
    · intro col row hrow
      rw [happ]
      simp [writeCell, hrow]
  · have h0 := hpre 0 (by omega)
    have h1 := hpre 1 (by omega)
    have h2 := hpre 2 (by omega)
    have h3 := hpre 3 (by omega)
    have happ : append_to_sheet ws Option.none fa s e =
        (writeCell (writeCell (writeCell (writeCell s 1 (s.rows + 1) (.s e.date)) 3
          (s.rows + 1) (.s e.description)) 4 (s.rows + 1) (.s e.category)) 7
          (s.rows + 1) (.num e.amount),
         .error (.expenseError (wrapGExc exc))) := by
      simp only [append_to_sheet, columnMapping, runUpdates, h0, h1, h2, h3, hfk]
    refine ⟨by rw [happ], ?_, ?_, ?_, fun exc2 => rfl⟩
    · intro i hi
      interval_cases i <;> (rw [happ]; simp [writeCell, colAt, cellAt])
    · intro i hge h5
      rw [happ]
      interval_cases i
      simp [writeCell, colAt]
    · intro col row hrow
      rw [happ]
      simp [writeCell, hrow]

/-- Witness for C1 amended: concrete failure at the third write — error
raised, A and C written, G untouched, other rows untouched, and a pre-write
failure leaves the sheet unchanged. -/
theorem append_partial_write_on_failure_witness :
    (append_to_sheet "Hoja" Option.none failAfter2 emptySheet
      ⟨"24-10-2025", "Coffee", "Almuerzo", "3.50", "Cash"⟩).2 =
      .error (.expenseError "Error al conectar con Google Sheets: quota") ∧
    (append_to_sheet "Hoja" Option.none failAfter2 emptySheet
      ⟨"24-10-2025", "Coffee", "Almuerzo", "3.50", "Cash"⟩).1.cells 1 1 =
      some (.s "24-10-2025") ∧
    (append_to_sheet "Hoja" Option.none failAfter2 emptySheet
      ⟨"24-10-2025", "Coffee", "Almuerzo", "3.50", "Cash"⟩).1.cells 7 1 =
      emptySheet.cells 7 1 ∧
    (append_to_sheet "Hoja" Option.none failAfter2 emptySheet
      ⟨"24-10-2025", "Coffee", "Almuerzo", "3.50", "Cash"⟩).1.cells 1 2 =
      emptySheet.cells 1 2 ∧
    append_to_sheet "Hoja" (some (.otherExc "boom")) failAfter2 emptySheet
      ⟨"24-10-2025", "Coffee", "Almuerzo", "3.50", "Cash"⟩ =
      (emptySheet, .error (.expenseError "Error al insertar datos: boom")) := by
  have h := append_partial_write_on_failure "Hoja" emptySheet
    ⟨"24-10-2025", "Coffee", "Almuerzo", "3.50", "Cash"⟩ failAfter2 2
    (.apiError "quota") (by omega) (fun i hi => by interval_cases i <;> rfl) rfl
  exact ⟨h.1, h.2.1 0 (by omega), h.2.2.1 3 (by omega) (by omega),
    h.2.2.2.1 1 2 (by decide), h.2.2.2.2 (.otherExc "boom")⟩

/-- Counterexample to C2 as stated: on an unexpected (non-`ExpenseError`)
failure the handler does answer 500 with a generic body, but that body is
`{"error": "Error interno del servidor"}` — not the English
`{"error": "internal server error"}` the claim fixes. -/
theorem handler_500_body_counterexample :
    (lambda_handler jlFix "Hoja" Option.none neverFail emptySheet
      [("body", PyVal.list [])]).statusCode = 500 ∧
    (lambda_handler jlFix "Hoja" Option.none neverFail emptySheet
      [("body", PyVal.list [])]).body =
      "\x7b\"error\": \"Error interno del servidor\"\x7d" ∧
    (lambda_handler jlFix "Hoja" Option.none neverFail emptySheet
      [("body", PyVal.list [])]).body ≠
      "\x7b\"error\": \"internal server error\"\x7d" := by
  refine ⟨rfl, rfl, ?_⟩
  decide

/-- C2 amended: `lambda_handler` is a total function of the event (exactly
one response per invocation); every failure that is not an `ExpenseError`
is answered with status 500 and the fixed generic body
`{"error": "Error interno del servidor"}`, independent of the exception's
details, while an `ExpenseError` is answered with status 400 and its
message.  (Backend failures are wrapped into `ExpenseError` by
`append_to_sheet`, so parse errors are the only non-`ExpenseError` source.) -/
theorem handler_unexpected_500 (jl : String → Except String PyVal)
    (ws : String) (pf : Option GExc) (fa : Nat → Option GExc) (sheet : Sheet)
    (event : List (String × PyVal)) (e : PyExc) :
    (parse_payload jl event = .error e → e.isExpense = false →
      lambda_handler jl ws pf fa sheet event =
        create_response 500 (.dict [("error", .str "Error interno del servidor")])) ∧
    (∀ m, parse_payload jl event = .error (.expenseError m) →
      lambda_handler jl ws pf fa sheet event =
        create_response 400 (.dict [("error", .str m)])) ∧
    (create_response 500 (.dict [("error", .str "Error interno del servidor")])).statusCode
      = 500 ∧
    (create_response 500 (.dict [("error", .str "Error interno del servidor")])).body =
      "\x7b\"error\": \"Error interno del servidor\"\x7d" := by
  refine ⟨?_, ?_, rfl, rfl⟩
  · intro hp hne
    unfold lambda_handler
    rw [hp]
    cases e with
    | expenseError m => exact absurd hne (by simp [PyExc.isExpense])
    | attributeError m => rfl
    | other m => rfl
  · intro m hp
    unfold lambda_handler
    rw [hp]
    rfl

/-- Witness for C2 amended: an `int` body raises `AttributeError` → 500 with
the generic body; an unparsable string body raises `ExpenseError` → 400 with
its message. -/
theorem handler_unexpected_500_witness :
    lambda_handler jlFix "Hoja" Option.none neverFail emptySheet
      [("body", PyVal.int 7)] =
      create_response 500 (.dict [("error", .str "Error interno del servidor")]) ∧
    lambda_handler jlFix "Hoja" Option.none neverFail emptySheet
      [("body", PyVal.str "bad")] =
      create_response 400 (.dict [("error",
        .str "Payload inválido: Expecting value: line 1 column 1 (char 0)")]) :=
  ⟨(handler_unexpected_500 jlFix "Hoja" Option.none neverFail emptySheet
      [("body", PyVal.int 7)]
      (.attributeError "\x27int\x27 object has no attribute \x27get\x27")).1 rfl rfl,
   (handler_unexpected_500 jlFix "Hoja" Option.none neverFail emptySheet
      [("body", PyVal.str "bad")] (.other "")).2.1
      "Payload inválido: Expecting value: line 1 column 1 (char 0)" rfl⟩

/-- The rendering of a digit value is an ASCII digit. -/
theorem digitChar_isDig (m : Nat) (h : m < 10) : isDig (Nat.digitChar m) = true := by
  interval_cases m <;> rfl

/-- `fixed2` always ends in a dot followed by exactly two digits. -/
theorem isTwoDecimalString_fixed2 (n : Nat) : isTwoDecimalString (fixed2 n) = true := by
  have hd1 : isDig (Nat.digitChar (n / 10 % 10)) = true :=
    digitChar_isDig _ (Nat.mod_lt _ (by norm_num))
  have hd2 : isDig (Nat.digitChar (n % 10)) = true :=
    digitChar_isDig _ (Nat.mod_lt _ (by norm_num))
  have hrev : (fixed2 n).data.reverse =
      Nat.digitChar (n % 10) :: Nat.digitChar (n / 10 % 10) :: '.' ::
        (Nat.repr (n / 100)).data.reverse := by
    show (Nat.repr (n / 100) ++ "." ++
      ⟨[Nat.digitChar (n / 10 % 10), Nat.digitChar (n % 10)]⟩).data.reverse = _
    rw [String.data_append, String.data_append]
    simp
  unfold isTwoDecimalString
  rw [hrev]
  simp [hd1, hd2]

/-- Counterexample to C4 as stated: `"inf"` parses as a `Decimal`
(`Infinity`), is greater than zero, is accepted, and is returned as
`"Infinity"` — which is not a string formatted to two decimal places. -/
theorem validate_amount_inf_counterexample :
    validate_amount "inf" = .ok "Infinity" ∧
    isTwoDecimalString "Infinity" = false :=
  ⟨rfl, rfl⟩

/-- C4 amended: `validate_amount` accepts comma or dot as decimal
separator; it fails with `ValidationError` when the comma-to-dot rewritten
input does not parse as a decimal numeric string (or is a NaN, whose
comparison signals), and when the parsed value is ≤ 0; every accepted
FINITE value is returned formatted to exactly two decimal places with
half-even rounding; the accepted non-finite value (`inf`/`Infinity`,
any case) is returned as `"Infinity"`. -/
theorem validate_amount_amended (s : String) (c : Nat) (ex : Int) :
    (parseDecimal (replaceCommas s) = Option.none →
      validate_amount s = .error (.expenseError ("Monto inválido: " ++ s))) ∧
    (parseDecimal (replaceCommas s) = some .nan →
      validate_amount s = .error (.expenseError ("Monto inválido: " ++ s))) ∧
    (∀ d, parseDecimal (replaceCommas s) = some d → d ≠ .nan → decLeZero d = true →
      validate_amount s = .error (.expenseError "El monto debe ser mayor a cero")) ∧
    (parseDecimal (replaceCommas s) = some (.finite false c ex) → c ≠ 0 →
      validate_amount s = .ok (fixed2 (scaled100 c ex)) ∧
      isTwoDecimalString (fixed2 (scaled100 c ex)) = true) ∧
    (parseDecimal (replaceCommas s) = some (.inf false) →
      validate_amount s = .ok "Infinity") := by
  refine ⟨?_, ?_, ?_, ?_, ?_⟩
  · intro h
    unfold validate_amount
    rw [h]
  · intro h
    unfold validate_amount
    rw [h]
  · intro d h hnan hle
    unfold validate_amount
    rw [h]
    cases d with
    | nan => exact absurd rfl hnan
    | finite neg cc ee => simp [hle]
    | inf b => simp [hle]
  · intro h hc
    have hle : decLeZero (.finite false c ex) = false := by
      simp [decLeZero, hc]
    constructor
    · unfold validate_amount
      rw [h]
      simp [hle, formatDec]
    · exact isTwoDecimalString_fixed2 _
  · intro h
    unfold validate_amount
    rw [h]
    simp [decLeZero, formatDec]

/-- Witness for C4 amended: `"abc"` fails to parse; `"0"` and `"-5"` are
rejected as non-positive; `"100"` → `"100.00"`; `"99,9"` (comma separator)
→ `"99.90"`; `"2.005"` → `"2.00"` (half-even); `"inf"` → `"Infinity"`. -/
theorem validate_amount_amended_witness :
    validate_amount "abc" = .error (.expenseError "Monto inválido: abc") ∧
    validate_amount "0" = .error (.expenseError "El monto debe ser mayor a cero") ∧
    validate_amount "-5" = .error (.expenseError "El monto debe ser mayor a cero") ∧
    validate_amount "100" = .ok "100.00" ∧
    validate_amount "99,9" = .ok "99.90" ∧
    validate_amount "2.005" = .ok "2.00" ∧
    validate_amount "inf" = .ok "Infinity" := by
  refine ⟨?_, ?_, ?_, ?_, ?_, ?_, ?_⟩
  · exact (validate_amount_amended "abc" 0 0).1 rfl
  · exact (validate_amount_amended "0" 0 0).2.2.1 (.finite false 0 0) rfl
      (by decide) rfl
  · exact (validate_amount_amended "-5" 0 0).2.2.1 (.finite true 5 0) rfl
      (by decide) rfl
  · exact ((validate_amount_amended "100" 100 0).2.2.2.1 rfl (by decide)).1
  · exact ((validate_amount_amended "99,9" 999 (-1)).2.2.2.1 rfl (by decide)).1
  · exact ((validate_amount_amended "2.005" 2005 (-3)).2.2.2.1 rfl (by decide)).1
  · exact (validate_amount_amended "inf" 0 0).2.2.2.2 rfl

/-- Digit characters have value at most 9. -/
theorem dval_le_9 (c : Char) (h : isDig c = true) : dval c ≤ 9 := by
  unfold isDig at h
  simp only [Bool.and_eq_true, decide_eq_true_eq] at h
  unfold dval
  omega

/-- `natOfDigits` of a single digit. -/
theorem natOfDigits_one (c : Char) : natOfDigits [c] = dval c := by
  simp [natOfDigits]

/-- `natOfDigits` of two digits. -/
theorem natOfDigits_two (c1 c2 : Char) :
    natOfDigits [c1, c2] = 10 * dval c1 + dval c2 := by
  simp [natOfDigits]

/-- Months have at most 31 days. -/
theorem daysInMonth_le_31 (y m : Nat) : daysInMonth y m ≤ 31 := by
  unfold daysInMonth
  split
  · split <;> omega
  · split <;> omega

/-- Inversion of the `%d`/`%m` field match: a success consumed one digit of
value 1–9, or two digits of value 1–`hi`; either way the value is the
digit-string value, is positive, and is at most `max 9 hi`. -/
theorem parse12_some_decomp (hi : Nat) (l : List Char) (n : Nat) (rest : List Char)
    (h : parse12 hi l = some (n, rest)) :
    ∃ ds, l = ds ++ rest ∧ ds ≠ [] ∧ ds.length ≤ 2 ∧ (∀ c ∈ ds, isDig c = true) ∧
      natOfDigits ds = n ∧ 1 ≤ n ∧ (n ≤ 9 ∨ n ≤ hi) := by
  match l with
  | [] => simp [parse12] at h
  | [c] =>
    simp only [parse12] at h
    split at h
    · rename_i hc
      injection h with h2
      have hn : dval c = n := congrArg Prod.fst h2
      have hr : ([] : List Char) = rest := congrArg Prod.snd h2
      refine ⟨[c], by rw [← hr]; rfl, by simp, by simp, ?_,
        by rw [natOfDigits_one, hn], by omega,
        Or.inl (by have := dval_le_9 c hc.1; omega)⟩
      intro c' hc'
      simp at hc'
      subst hc'
      exact hc.1
    · exact absurd h (by simp)
  | c1 :: c2 :: r =>
    simp only [parse12] at h
    split at h
    · rename_i hcc
      split at h
      · rename_i hbound
        injection h with h2
        have hn : 10 * dval c1 + dval c2 = n := congrArg Prod.fst h2
        have hr : r = rest := congrArg Prod.snd h2
        refine ⟨[c1, c2], by rw [← hr]; rfl, by simp, by simp, ?_,
          by rw [natOfDigits_two, hn], by omega, Or.inr (by omega)⟩
        intro c' hc'
        simp at hc'
        rcases hc' with rfl | rfl
        exacts [hcc.1, hcc.2]
      · exact absurd h (by simp)
    · split at h
      · rename_i hc1
        injection h with h2
        have hn : dval c1 = n := congrArg Prod.fst h2
        have hr : c2 :: r = rest := congrArg Prod.snd h2
        refine ⟨[c1], by rw [← hr]; rfl, by simp, by simp, ?_,
          by rw [natOfDigits_one, hn], by omega,
          Or.inl (by have := dval_le_9 c1 hc1.1; omega)⟩
        intro c' hc'
        simp at hc'
        subst hc'
        exact hc1.1
      · exact absurd h (by simp)

/-- A single non-zero digit followed by a non-digit is consumed as a
one-digit field. -/
theorem parse12_cons_nondigit (hi : Nat) (c d : Char) (t : List Char)
    (hc : isDig c = true) (h1 : 1 ≤ dval c) (hd : isDig d = false) :
    parse12 hi (c :: d :: t) = some (dval c, d :: t) := by
  simp only [parse12]
  rw [if_neg (by simp [hd]), if_pos ⟨hc, h1⟩]

/-- Two digits with value in `1..hi` are consumed as a two-digit field. -/
theorem parse12_two_digits (hi : Nat) (c1 c2 : Char) (t : List Char)
    (h1 : isDig c1 = true) (h2 : isDig c2 = true)
    (hlo : 1 ≤ 10 * dval c1 + dval c2) (hhi : 10 * dval c1 + dval c2 ≤ hi) :
    parse12 hi (c1 :: c2 :: t) = some (10 * dval c1 + dval c2, t) := by
  simp only [parse12]
  rw [if_pos ⟨h1, h2⟩, if_pos ⟨hlo, hhi⟩]

/-- A 1–2 digit prefix of value `1..hi` followed by the literal `-` is
consumed exactly up to the dash. -/
theorem parse12_digits_prefix (hi : Nat) (ds rest' : List Char)
    (h0 : ds ≠ []) (h2 : ds.length ≤ 2) (hdig : ∀ c ∈ ds, isDig c = true)
    (hlo : 1 ≤ natOfDigits ds) (hhi : natOfDigits ds ≤ hi) :
    parse12 hi (ds ++ '-' :: rest') = some (natOfDigits ds, '-' :: rest') := by
  match ds with
  | [] => exact absurd rfl h0
  | [c] =>
    have hc := hdig c (by simp)
    rw [natOfDigits_one] at hlo ⊢
    exact parse12_cons_nondigit hi c '-' rest' hc hlo rfl
  | [c1, c2] =>
    have hc1 := hdig c1 (by simp)
    have hc2 := hdig c2 (by simp)
    rw [natOfDigits_two] at hlo hhi ⊢
    exact parse12_two_digits hi c1 c2 _ hc1 hc2 hlo hhi
  | c1 :: c2 :: c3 :: t => simp at h2

/-- The language accepted by the modelled `strptime(s, "%d-%m-%Y")` is
exactly: 1–2 digit day, dash, 1–2 digit month, dash, 4-digit year, forming a
valid calendar date of year ≥ 1. -/
theorem validDMY_iff_specLax (s : String) : validDMY s = true ↔ specLaxDMY s := by
  constructor
  · intro h
    unfold validDMY at h
    split at h
    all_goals try exact Bool.noConfusion h
    rename_i d r1 heq1
    split at h
    all_goals try exact Bool.noConfusion h
    rename_i m r2 heq2
    split at h
    all_goals try exact Bool.noConfusion h
    rename_i y1 y2 y3 y4
    obtain ⟨ds, hl1, hds0, hds2, hdsdig, hdsn, hd1, _⟩ :=
      parse12_some_decomp _ _ _ _ heq1
    obtain ⟨ms, hl2, hms0, hms2, hmsdig, hmsn, hm1, hmb⟩ :=
      parse12_some_decomp _ _ _ _ heq2
    simp only [Bool.and_eq_true, decide_eq_true_eq] at h
    obtain ⟨⟨⟨⟨⟨hy1, hy2⟩, hy3⟩, hy4⟩, hyge⟩, hdim⟩ := h
    refine ⟨ds, ms, [y1, y2, y3, y4], ?_, hds0, hds2, hdsdig, hms0, hms2, hmsdig,
      by simp, ?_, ?_, ?_, ?_, hyge, ?_⟩
    · rw [hl1, hl2]
    · intro c hc
      simp at hc
      rcases hc with rfl | rfl | rfl | rfl
      exacts [hy1, hy2, hy3, hy4]
    · rw [hdsn]
      exact hd1
    · rw [hmsn]
      exact hm1
    · rw [hmsn]
      rcases hmb with hb | hb <;> omega
    · rw [hdsn, hmsn]
      exact hdim
  · rintro ⟨ds, ms, ys, hdata, hds0, hds2, hdsdig, hms0, hms2, hmsdig, hys4,
      hysdig, hd1, hm1, hm12, hy1, hdm⟩
    obtain ⟨y1, y2, y3, y4, rfl⟩ : ∃ a b c d, ys = [a, b, c, d] := by
      rcases ys with _ | ⟨a, t⟩
      · simp at hys4
      rcases t with _ | ⟨b, t⟩
      · simp at hys4
      rcases t with _ | ⟨c, t⟩
      · simp at hys4
      rcases t with _ | ⟨d, t⟩
      · simp at hys4
      rcases t with _ | ⟨e, t⟩
      · exact ⟨a, b, c, d, rfl⟩
      · simp at hys4
    have hp1 := parse12_digits_prefix 31 ds (ms ++ '-' :: [y1, y2, y3, y4])
      hds0 hds2 hdsdig hd1 (hdm.trans (daysInMonth_le_31 _ _))
    have hp2 := parse12_digits_prefix 12 ms [y1, y2, y3, y4]
      hms0 hms2 hmsdig hm1 hm12
    have hy1d := hysdig y1 (by simp)
    have hy2d := hysdig y2 (by simp)
    have hy3d := hysdig y3 (by simp)
    have hy4d := hysdig y4 (by simp)
    unfold validDMY
    rw [hdata]
    simp only [hp1, hp2]
    simp [hy1d, hy2d, hy3d, hy4d, hy1, hdm]

/-- Counterexample to C3 as stated: `"1-1-2025"` does not have zero-padded
two-digit day and month, so per the claim `validate_date` should fail — but
Python's `%d`/`%m` also accept single digits, and the code returns the
string unchanged. -/
theorem validate_date_padding_counterexample :
    specZeroPaddedDMY "1-1-2025" = false ∧
    validate_date "1-1-2025" = .ok "1-1-2025" :=
  ⟨rfl, rfl⟩

/-- C3 amended: `validate_date` accepts exactly the strings that decompose
as day `-` month `-` year with ONE- OR TWO-digit day and month (zero
padding not required), exactly four-digit year, forming a valid calendar
date of year ≥ 1; accepted strings are returned unchanged (no reformatting)
and everything else fails with the `ExpenseError` date message. -/
theorem validate_date_amended (s : String) :
    (validate_date s = .ok s ↔ specLaxDMY s) ∧
    (∀ t, validate_date s = .ok t → t = s) ∧
    (¬ specLaxDMY s → validate_date s =
      .error (.expenseError ("Fecha inválida: " ++ s ++ ". Use formato DD-MM-YYYY"))) := by
  have hiff := validDMY_iff_specLax s
  refine ⟨⟨?_, ?_⟩, ?_, ?_⟩
  · intro h
    cases hb : validDMY s with
    | false =>
      unfold validate_date at h
      rw [hb] at h
      exact absurd h (by simp)
    | true => exact hiff.mp hb
  · intro h
    have hb : validDMY s = true := hiff.mpr h
    simp [validate_date, hb]
  · intro t h
    unfold validate_date at h
    split at h
    · injection h with h2
      exact h2.symm
    · exact absurd h (by simp)
  · intro hns
    have hb : validDMY s = false := by
      cases hb : validDMY s with
      | true => exact absurd (hiff.mp hb) hns
      | false => rfl
    simp [validate_date, hb]

/-- Witness for C3 amended: a padded date and a non-padded date are both
accepted unchanged; an ISO-ordered date and an out-of-range date fail with
the date message. -/
theorem validate_date_amended_witness :
    validate_date "24-10-2025" = .ok "24-10-2025" ∧
    validate_date "1-1-2025" = .ok "1-1-2025" ∧
    validate_date "2025-10-24" =
      .error (.expenseError "Fecha inválida: 2025-10-24. Use formato DD-MM-YYYY") ∧
    validate_date "32-13-2025" =
      .error (.expenseError "Fecha inválida: 32-13-2025. Use formato DD-MM-YYYY") := by
  have hns1 : ¬ specLaxDMY "2025-10-24" := fun hsp =>
    absurd ((validate_date_amended "2025-10-24").1.mpr hsp) (by decide)
  have hns2 : ¬ specLaxDMY "32-13-2025" := fun hsp =>
    absurd ((validate_date_amended "32-13-2025").1.mpr hsp) (by decide)
  refine ⟨?_, ?_, ?_, ?_⟩
  · exact (validate_date_amended "24-10-2025").1.mpr
      ⟨['2', '4'], ['1', '0'], ['2', '0', '2', '5'], by decide, by decide, by decide,
       by decide, by decide, by decide, by decide, by decide, by decide, by decide,
       by decide, by decide, by decide, by decide⟩
  · exact (validate_date_amended "1-1-2025").1.mpr
      ⟨['1'], ['1'], ['2', '0', '2', '5'], by decide, by decide, by decide,
       by decide, by decide, by decide, by decide, by decide, by decide, by decide,
       by decide, by decide, by decide, by decide⟩
  · exact (validate_date_amended "2025-10-24").2.2 hns1
  · exact (validate_date_amended "32-13-2025").2.2 hns2
